import Mathlib

/-!
Verification of the baymax-ai-proxy worker (src/src/index.ts and the
auth variant in src/unnamed/part_000) against its specification.

The TypeScript request handlers are shallowly embedded as pure Lean
functions.  External collaborators (the key-value store, the vector
retrieval service, the completion API, the password-hash and token-sign
library calls) are modelled as explicit oracle arguments and abstract
but executable primitives.
-/

namespace Baymax

/-- A chat message, as stored per session: `{ role, content }`. -/
structure Message where
  role : String
  content : String
deriving DecidableEq, Repr

/-- Source: `const MAX_HISTORY = 20;` -/
def MAX_HISTORY : Nat := 20

/-- Source: `const HISTORY_TTL = 60 * 60 * 24 * 30;` -/
def HISTORY_TTL : Nat := 60 * 60 * 24 * 30

/-- Source test: `m.role === "system"`. -/
def isSystem (m : Message) : Bool := m.role == "system"

/-- JavaScript `arr.slice(-n)` for `n > 0`: the last `n` elements
(the whole list when `n ≥ length`). -/
def lastN (n : Nat) (l : List Message) : List Message :=
  l.drop (l.length - n)

/-- The trim step of the chat handler (index.ts lines 115-117):

```
const systemMessage = history.find((m) => m.role === "system") ?? null;
const nonSystem = history.filter((m) => m.role !== "system")
    .slice(-(MAX_HISTORY - (systemMessage ? 1 : 0)));
history = systemMessage ? [systemMessage, ...nonSystem] : nonSystem;
```
-/
def trimHistory (history : List Message) : List Message :=
  let systemMessage := history.find? isSystem
  let nonSystem :=
    lastN (MAX_HISTORY - (if systemMessage.isSome then 1 else 0))
      (history.filter (fun m => !(isSystem m)))
  match systemMessage with
  | some s => s :: nonSystem
  | none => nonSystem

/-- JavaScript `String.prototype.trim()`: strip leading and trailing
whitespace. -/
def jsTrim (s : String) : String :=
  String.mk (((s.data.dropWhile Char.isWhitespace).reverse.dropWhile
    Char.isWhitespace).reverse)

/-- Helper for `sanitize`: the JavaScript replace of every whitespace
run by a single space.  The flag records whether the
previous character belonged to a whitespace run. -/
def collapseWsGo : Bool → List Char → List Char
  | _, [] => []
  | prevWs, c :: rest =>
    if c.isWhitespace then
      if prevWs then collapseWsGo true rest
      else ' ' :: collapseWsGo true rest
    else c :: collapseWsGo false rest

/-- Source: the sanitized input, every whitespace run of `userMessage`
replaced by a single space and the outcome trimmed. -/
def sanitize (s : String) : String :=
  jsTrim (String.mk (collapseWsGo false s.data))

/-- The default seed when no history is stored (index.ts lines 104-111). -/
def defaultSystem : Message :=
  ⟨"system", "You are Baymax, a friendly medical AI giving safe health advice."⟩

/-- One retrieval result row: the optional fields Medicine Name, Uses
and Side_effects. -/
structure VectorResult where
  medicineName : Option String
  uses : Option String
  sideEffects : Option String
deriving DecidableEq, Repr

/-- Parsed JSON body of the retrieval response (`results` may be absent). -/
structure VectorResponse where
  results : Option (List VectorResult)
deriving DecidableEq, Repr

/-- Outcome of `fetch(env.VECTOR_API_URL, ...)`:
either the promise rejects (network error), or a response arrives with
some HTTP status whose body parses to `bodyJson`
(`none` when `.json()` rejects).  The handler never inspects the
retrieval status. -/
inductive VectorOutcome where
  | throw : VectorOutcome
  | resp (status : Nat) (bodyJson : Option VectorResponse) : VectorOutcome
deriving DecidableEq, Repr

/-- One bullet line of the context
(a bullet, the name, the uses and the side effects, with the defaults
"Unknown", "N/A" and "None listed"). -/
def bulletLine (r : VectorResult) : String :=
  "â€¢ " ++ r.medicineName.getD "Unknown" ++ ": Used for " ++
    r.uses.getD "N/A" ++ ". Side effects: " ++ r.sideEffects.getD "None listed"

/-- The context string and `embeddings` array produced by the retrieval
block (index.ts lines 119-143): empty on rejection, unparsable JSON,
missing `results`, or an empty `results` array; otherwise the joined
bullet lines. -/
def contextOf : VectorOutcome → String × List VectorResult
  | .throw => ("", [])
  | .resp _ none => ("", [])
  | .resp _ (some vr) =>
    match vr.results with
    | none => ("", [])
    | some rs =>
      if rs.length ≠ 0 then (String.intercalate "\n" (rs.map bulletLine), rs)
      else ("", [])

/-- The extra leading system message injected when context is non-empty
(index.ts lines 145-150). -/
def contextMessage (context : String) : Message :=
  ⟨"system",
   "Medical database context:\n" ++ context ++
     "\n\nRespond as Baymax, using this data carefully."⟩

/-- Model of `message?: { content?: string }` of a completion choice. -/
structure GroqMessage where
  content : Option String
deriving DecidableEq, Repr

/-- One element of `choices`: `{ message?, text? }`. -/
structure GroqChoice where
  message : Option GroqMessage
  text : Option String
deriving DecidableEq, Repr

/-- The top-level `reply` field can hold JSON of any type; the handler
uses it only when `typeof data.reply === "string"`. -/
inductive JReply where
  | jstr (s : String) : JReply
  | jother : JReply
deriving DecidableEq, Repr

/-- Parsed JSON body of the completion response. -/
structure GroqResponse where
  choices : Option (List GroqChoice)
  reply : Option JReply
deriving DecidableEq, Repr

/-- The completion-API HTTP response: status, the raw text body
(`none` when `.text()` rejects) and the parsed JSON body
(`none` when `.json()` rejects). -/
structure HttpResp where
  status : Nat
  bodyText : Option String
  bodyJson : Option GroqResponse
deriving DecidableEq, Repr

/-- Property `Response.ok`: status in the inclusive range 200-299. -/
def HttpResp.ok (r : HttpResp) : Bool :=
  decide (200 ≤ r.status ∧ r.status ≤ 299)

/-- Reply extraction (index.ts lines 185-189):

```
const rawReply =
    data?.choices?.[0]?.message?.content ??
    data?.choices?.[0]?.text ??
    (typeof data?.reply === "string" ? data.reply : null) ??
    "Model returned no reply";
```
-/
def extractReply (data : Option GroqResponse) : String :=
  let c0 : Option GroqChoice := (data.bind GroqResponse.choices).bind List.head?
  match (c0.bind GroqChoice.message).bind GroqMessage.content with
  | some s => s
  | none =>
    match c0.bind GroqChoice.text with
    | some s => s
    | none =>
      match (data.bind GroqResponse.reply).bind (fun r =>
        match r with
        | JReply.jstr s => some s
        | JReply.jother => none) with
      | some s => s
      | none => "Model returned no reply"

/-- Spec-side selector: the structured message content of the first
choice. -/
def firstChoiceContent (data : Option GroqResponse) : Option String :=
  (((data.bind GroqResponse.choices).bind List.head?).bind
    GroqChoice.message).bind GroqMessage.content

/-- Spec-side selector: the text field of the first choice. -/
def firstChoiceText (data : Option GroqResponse) : Option String :=
  ((data.bind GroqResponse.choices).bind List.head?).bind GroqChoice.text

/-- Spec-side selector: the flat top-level reply field, used only when
it holds a string. -/
def flatStringReply (data : Option GroqResponse) : Option String :=
  (data.bind GroqResponse.reply).bind fun r =>
    match r with
    | .jstr s => some s
    | .jother => none

/-- The parsed request body fields used by the chat path of index.ts:
`some s` when the field is a JSON string `s`, `none` when it is absent
or not a string. -/
structure ReqBody where
  sessionId : Option String
  userMessage : Option String
deriving DecidableEq, Repr

/-- Observable outcome of one chat request: the HTTP status, the error
message (for error responses), the upstream echo fields of the 502
response, the refined reply, the `context` value, the value written to
the session key (`none` when no write happened), and whether the
session store / retrieval service / completion API were contacted. -/
structure ChatResult where
  status : Nat
  errorMsg : Option String
  upstreamStatus : Option Nat
  upstreamDetail : Option String
  reply : Option String
  context : String
  storeWrite : Option (List Message)
  touchedStore : Bool
  calledVector : Bool
  calledGroq : Bool
deriving DecidableEq, Repr

/-- An error response issued before any external call
(index.ts lines 96-98). -/
def noEffect (status : Nat) (msg : String) : ChatResult :=
  { status := status, errorMsg := some msg, upstreamStatus := none,
    upstreamDetail := none, reply := none, context := "",
    storeWrite := none, touchedStore := false, calledVector := false,
    calledGroq := false }

/-- The chat pipeline after field validation (index.ts lines 100-221):
load or seed the history, append the user turn, trim, fetch retrieval
context, optionally inject the context system message, call the
completion API; on non-ok status answer 502 echoing upstream status and
error text, otherwise append the assistant reply and write the history
back. `um` is the already-trimmed user message. -/
def chatCore (um : String) (stored : Option (List Message))
    (vec : VectorOutcome) (groq : HttpResp) : ChatResult :=
  let sanitizedInput := sanitize um
  let history0 := stored.getD [defaultSystem]
  let history1 := history0 ++ [⟨"user", sanitizedInput⟩]
  let history2 := trimHistory history1
  let context := (contextOf vec).1
  let history3 := if context ≠ "" then contextMessage context :: history2
    else history2
  if groq.ok then
    let rawReply := extractReply groq.bodyJson
    let refinedReply := jsTrim rawReply
    let history4 := history3 ++ [⟨"assistant", refinedReply⟩]
    { status := 200, errorMsg := none, upstreamStatus := none,
      upstreamDetail := none, reply := some refinedReply, context := context,
      storeWrite := some history4, touchedStore := true,
      calledVector := true, calledGroq := true }
  else
    { status := 502, errorMsg := some "Upstream model error",
      upstreamStatus := some groq.status,
      upstreamDetail := some (groq.bodyText.getD "<no-body>"),
      reply := none, context := context, storeWrite := none,
      touchedStore := true, calledVector := true, calledGroq := true }

/-- The chat handler of index.ts from field validation on
(lines 93-221): `sessionId` and `userMessage` are trimmed and must be
non-empty strings (otherwise 400), the trimmed `userMessage` must not
exceed 20000 characters (otherwise 413), then the pipeline runs. -/
def handleChat (body : ReqBody) (stored : Option (List Message))
    (vec : VectorOutcome) (groq : HttpResp) : ChatResult :=
  let sessionId : Option String :=
    match body.sessionId with
    | some s => if jsTrim s = "" then none else some (jsTrim s)
    | none => none
  let userMessage : Option String :=
    match body.userMessage with
    | some s => if jsTrim s = "" then none else some (jsTrim s)
    | none => none
  match sessionId, userMessage with
  | some _, some um =>
    if um.length > 20000 then noEffect 413 "userMessage too long"
    else chatCore um stored vec groq
  | _, _ => noEffect 400 "Missing sessionId or userMessage"

/-- The session-store state change effected by one chat request on its
own session key: the written history when a write happened, the old
value otherwise. -/
def chatStep (stored : Option (List Message)) (um : String)
    (vec : VectorOutcome) (groq : HttpResp) : Option (List Message) :=
  match (handleChat ⟨some "s1", some um⟩ stored vec groq).storeWrite with
  | some h => some h
  | none => stored

/-- A retrieval outcome yielding no context (the body fails to parse). -/
def noVector : VectorOutcome := .resp 200 none

/-- A successful completion response whose first choice carries the
content "ok". -/
def groqOkResp : HttpResp :=
  ⟨200, some "", some ⟨some [⟨some ⟨some "ok"⟩, none⟩], none⟩⟩

/-- The i-th distinct user message of the repeated-call example. -/
def exampleMsg (i : Nat) : String := "msg" ++ toString i

/-- Run `n` example chat calls on one session starting from an empty
store, with distinct messages, no retrieval context and a successful
completion each time.  Returns the final stored value together with a
flag recording that every call answered 200. -/
def runSessionOk : Nat → Option (List Message) × Bool
  | 0 => (none, true)
  | n + 1 =>
    let prev := runSessionOk n
    let r := handleChat ⟨some "s1", some (exampleMsg n)⟩ prev.1 noVector groqOkResp
    (chatStep prev.1 (exampleMsg n) noVector groqOkResp, prev.2 && (r.status == 200))

/-- A retrieval outcome that the spec counts as a failure and the code
absorbs into empty context: rejection, unparsable JSON, missing
`results`, or empty `results`.  (A non-2xx retrieval status is NOT on
this list: the handler never reads the retrieval status.) -/
def vectorSoftFail : VectorOutcome → Bool
  | .throw => true
  | .resp _ none => true
  | .resp _ (some vr) =>
    match vr.results with
    | none => true
    | some rs => rs.length == 0

/-! ### Auth variant (src/unnamed/part_000) -/

/-- Source: `const TOKEN_EXPIRY = 60 * 60;` -/
def TOKEN_EXPIRY : Nat := 60 * 60

/-- Source: `const TOKEN_REFRESH_THRESHOLD = 60;` -/
def TOKEN_REFRESH_THRESHOLD : Nat := 60

/-- Source: `const ALLOWED_ORIGINS = [...]` -/
def ALLOWED_ORIGINS : List String :=
  ["https://baymax.onslaught2342.qzz.io", "http://localhost:5173"]

/-- A signed JWT as data: the payload (`username`), the expiry instant
(seconds), and the secret that produced the signature. -/
structure Token where
  username : String
  exp : Nat
  secret : String
deriving DecidableEq, Repr

/-- A bearer token as presented on the wire: either garbage that no
verification accepts, or a well-formed signed token. -/
inductive PresentedToken where
  | malformed (raw : String) : PresentedToken
  | signed (t : Token) : PresentedToken
deriving DecidableEq, Repr

/-- Model of `jwt.sign` with the issuer secret and `expiresIn:
TOKEN_EXPIRY`, at time `now`. -/
def createToken (username : String) (secret : String) (now : Nat) : Token :=
  ⟨username, now + TOKEN_EXPIRY, secret⟩

/-- The serialized form of a token, as stored under `<user>_token`.
The worker never parses this string again. -/
def tokenString (t : Token) : String :=
  "jwt." ++ t.username ++ "." ++ toString t.exp ++ "." ++ t.secret

/-- Function `verifyJWT` (part_000 lines 67-75): `jwt.verify` succeeds exactly
when the signature matches the issuer secret and the token is not
expired; a missing/empty `username` claim is also an error.  Any error
is rethrown as a 401 `Response` object. -/
def verifyJWT (p : PresentedToken) (secret : String) (now : Nat) :
    Except Unit String :=
  match p with
  | .malformed _ => .error ()
  | .signed t =>
    if t.secret = secret ∧ now < t.exp then
      if t.username = "" then .error () else .ok t.username
    else .error ()

/-- The `BAYMAX_USERS` KV namespace: an association list from key to
stored string (later puts shadow earlier ones). -/
abbrev Users := List (String × String)

/-- Source: `env.BAYMAX_USERS.get(k)`. -/
def kvGet (store : Users) (k : String) : Option String :=
  (store.find? (fun kv => kv.1 == k)).map (fun kv => kv.2)

/-- Source: `env.BAYMAX_USERS.put(k, v)`. -/
def kvPut (store : Users) (k v : String) : Users :=
  (k, v) :: store

/-- Modelled library primitive `bcrypt.hash(password, 10)`: an injective
one-way encoding (the worker treats it as opaque). -/
def bcryptHash (password : String) : String :=
  "bcrypt$10$" ++ password

/-- Modelled library primitive `bcrypt.compare(password, stored)`:
true exactly when `stored` is the hash of `password`. -/
def bcryptCompare (password stored : String) : Bool :=
  stored == bcryptHash password

/-- Request body of the auth variant: `{username?, password?}` for
signup/login and `{sessionId?, userMessage?}` for chat.  `some s` means
the field holds string `s`; `none` means absent or non-string.
Field truthiness: `some s` with `s ≠ ""`. -/
structure AuthBody where
  username : Option String
  password : Option String
  sessionId : Option String
  userMessage : Option String
deriving DecidableEq, Repr

/-- An incoming request to the auth variant.  `bearer` is the token
carried after `Bearer ` in the Authorization header (`none` when the
header is missing or not of Bearer shape); `body` is `none` when the
body is not valid JSON. -/
structure AuthReq where
  origin : String
  method : String
  path : String
  bearer : Option PresentedToken
  body : Option AuthBody
deriving DecidableEq, Repr

/-- Observable outcome of one request to the auth variant. -/
structure AuthResult where
  status : Nat
  errorMsg : Option String
  username : Option String
  token : Option String
  refreshToken : Option String
  chat : Option ChatResult
  users : Users
deriving DecidableEq, Repr

/-- An error response of the auth variant. -/
def authErr (status : Nat) (msg : String) (users : Users)
    (refreshToken : Option String := none) : AuthResult :=
  { status := status, errorMsg := some msg, username := none,
    token := none, refreshToken := refreshToken, chat := none,
    users := users }

/-- Truthiness test `if (!x)` on an optional string field: absent,
non-string or empty. -/
def falsyStr : Option String → Bool
  | none => true
  | some s => s == ""

/-- The `fetch` handler of the auth variant (part_000 lines 77-263), from
origin gating on: signup, login, verify, and the authenticated chat
path (token check, near-expiry refresh, body validation, then the same
chat pipeline as index.ts).  A thrown 401 `Response` from `verifyJWT`
is caught by the top-level `catch (err)` which answers
`{error: err.message ?? "Internal Server Error"}` with status 500 —
a `Response` has no `message` property. -/
def authFetch (req : AuthReq) (users : Users)
    (stored : Option (List Message)) (vec : VectorOutcome)
    (groq : HttpResp) (secret : String) (now : Nat) : AuthResult :=
  if req.method = "OPTIONS" then
    { status := 204, errorMsg := none, username := none, token := none,
      refreshToken := none, chat := none, users := users }
  else if ¬ (ALLOWED_ORIGINS.contains req.origin) then
    authErr 403 "Forbidden origin" users
  else if req.path = "/signup" ∧ req.method = "POST" then
    match req.body with
    | none => authErr 400 "Invalid JSON" users
    | some b =>
      if falsyStr b.username ∨ falsyStr b.password then
        authErr 400 "Username and password required" users
      else
        let u := b.username.getD ""
        let p := b.password.getD ""
        match kvGet users u with
        | some _ => authErr 409 "Username already exists" users
        | none =>
          let users1 := kvPut users u (bcryptHash p)
          let tok := createToken u secret now
          let users2 := kvPut users1 (u ++ "_token") (tokenString tok)
          { status := 200, errorMsg := none, username := none,
            token := some (tokenString tok), refreshToken := none,
            chat := none, users := users2 }
  else if req.path = "/login" ∧ req.method = "POST" then
    match req.body with
    | none => authErr 400 "Invalid JSON" users
    | some b =>
      if falsyStr b.username ∨ falsyStr b.password then
        authErr 400 "Username and password required" users
      else
        let u := b.username.getD ""
        let p := b.password.getD ""
        match kvGet users u with
        | none => authErr 401 "Invalid credentials" users
        | some storedHash =>
          if bcryptCompare p storedHash then
            let tok := createToken u secret now
            let users1 := kvPut users (u ++ "_token") (tokenString tok)
            { status := 200, errorMsg := none, username := none,
              token := some (tokenString tok), refreshToken := none,
              chat := none, users := users1 }
          else authErr 401 "Invalid credentials" users
  else if req.path = "/verify" then
    match req.bearer with
    | none => authErr 401 "Missing token" users
    | some p =>
      match verifyJWT p secret now with
      | .ok u =>
        { status := 200, errorMsg := none, username := some u,
          token := none, refreshToken := none, chat := none,
          users := users }
      | .error _ => authErr 500 "Internal Server Error" users
  else if req.method ≠ "POST" then
    authErr 405 "Only POST allowed" users
  else
    match req.bearer with
    | none => authErr 401 "Unauthorized: missing token" users
    | some p =>
      match verifyJWT p secret now with
      | .error _ => authErr 500 "Internal Server Error" users
      | .ok u =>
        let needRefresh : Bool :=
          match p with
          | .signed t => (t.exp != 0) && decide (now + TOKEN_REFRESH_THRESHOLD > t.exp)
          | .malformed _ => false
        let refreshTok : Option Token :=
          if needRefresh then some (createToken u secret now) else none
        let refreshStr := refreshTok.map tokenString
        let users1 :=
          match refreshStr with
          | some ts => kvPut users (u ++ "_token") ts
          | none => users
        match req.body with
        | none => authErr 400 "Invalid JSON" users1 refreshStr
        | some b =>
          let um : Option String :=
            match b.userMessage with
            | some s => if jsTrim s = "" then none else some (jsTrim s)
            | none => none
          match um with
          | none => authErr 400 "Missing userMessage" users1 refreshStr
          | some m =>
            if m.length > 20000 then
              authErr 413 "userMessage too long" users1 refreshStr
            else if falsyStr b.sessionId then
              authErr 400 "Missing sessionId" users1 refreshStr
            else
              let c := chatCore m stored vec groq
              { status := c.status, errorMsg := c.errorMsg,
                username := none, token := none,
                refreshToken := refreshStr, chat := some c,
                users := users1 }

/-- A key of the companion "last issued token" records: a key ending
with the characters of "_token". -/
def isTokenKey (k : String) : Bool := "_token".data.isSuffixOf k.data

end Baymax

namespace Baymax

/-! ### Theorems -/

theorem lastN_length (n : Nat) (l : List Message) :
    (lastN n l).length = min n l.length := by
  simp only [lastN, List.length_drop]
  omega

theorem lastN_suffix (n : Nat) (l : List Message) : lastN n l <:+ l :=
  List.drop_suffix _ _

theorem lastN_subset (n : Nat) (l : List Message) :
    ∀ a ∈ lastN n l, a ∈ l := fun _ h => List.mem_of_mem_drop h

theorem trimHistory_length (l : List Message) :
    (trimHistory l).length ≤ MAX_HISTORY := by
  unfold trimHistory
  cases hf : l.find? isSystem with
  | none =>
      simp [hf, lastN_length, MAX_HISTORY]
      try omega
  | some s =>
      simp [hf, lastN_length, MAX_HISTORY]
      try omega

theorem trimHistory_of_find_some (l : List Message) (s : Message)
    (hf : l.find? isSystem = some s) :
    trimHistory l =
      s :: lastN (MAX_HISTORY - 1) (l.filter (fun m => !(isSystem m))) := by
  unfold trimHistory
  simp [hf]

theorem trimHistory_of_find_none (l : List Message)
    (hf : l.find? isSystem = none) :
    trimHistory l = lastN MAX_HISTORY (l.filter (fun m => !(isSystem m))) := by
  unfold trimHistory
  simp [hf]

theorem trimHistory_nonSystem_suffix (l : List Message) :
    (trimHistory l).filter (fun m => !(isSystem m)) <:+
      l.filter (fun m => !(isSystem m)) := by
  cases hf : l.find? isSystem with
  | none =>
      rw [trimHistory_of_find_none l hf]
      have hall : ∀ a ∈ lastN MAX_HISTORY (l.filter (fun m => !(isSystem m))),
          (fun m => !(isSystem m)) a = true := by
        intro a ha
        exact (List.mem_filter.mp (lastN_subset _ _ a ha)).2
      rw [List.filter_eq_self.mpr hall]
      exact lastN_suffix _ _
  | some s =>
      rw [trimHistory_of_find_some l s hf]
      have hs : isSystem s = true := List.find?_some hf
      have hall : ∀ a ∈ lastN (MAX_HISTORY - 1) (l.filter (fun m => !(isSystem m))),
          (fun m => !(isSystem m)) a = true := by
        intro a ha
        exact (List.mem_filter.mp (lastN_subset _ _ a ha)).2
      simp only [List.filter_cons, hs, Bool.not_true, List.filter_eq_self.mpr hall]
      exact lastN_suffix _ _

theorem trimHistory_system_count (l : List Message) :
    ((trimHistory l).filter isSystem).length ≤ 1 := by
  cases hf : l.find? isSystem with
  | none =>
      rw [trimHistory_of_find_none l hf]
      have hnil : (lastN MAX_HISTORY (l.filter (fun m => !(isSystem m)))).filter
          isSystem = [] := by
        rw [List.filter_eq_nil_iff]
        intro a ha
        have := (List.mem_filter.mp (lastN_subset _ _ a ha)).2
        simp only [Bool.not_eq_true'] at this
        simp [this]
      rw [hnil]
      simp
  | some s =>
      rw [trimHistory_of_find_some l s hf]
      have hs : isSystem s = true := List.find?_some hf
      have hnil : (lastN (MAX_HISTORY - 1) (l.filter (fun m => !(isSystem m)))).filter
          isSystem = [] := by
        rw [List.filter_eq_nil_iff]
        intro a ha
        have := (List.mem_filter.mp (lastN_subset _ _ a ha)).2
        simp only [Bool.not_eq_true'] at this
        simp [this]
      simp [List.filter_cons, hs, hnil]

end Baymax

/-- C2: the trim step returns at most `MAX_HISTORY = 20` messages; the kept
non-system messages are a suffix of the non-system messages of the input (so the
most recent ones, in preserved relative order, `N-1` of them when a system
message exists); at most one system message is retained — the first one
found — placed at the front, and every other (duplicate) system message is
dropped. -/
theorem C2_trim_spec (l : List Baymax.Message) :
    (Baymax.trimHistory l).length ≤ Baymax.MAX_HISTORY ∧
    ((Baymax.trimHistory l).filter (fun m => !(Baymax.isSystem m)) <:+
      l.filter (fun m => !(Baymax.isSystem m))) ∧
    ((Baymax.trimHistory l).filter Baymax.isSystem).length ≤ 1 ∧
    (∀ s, l.find? Baymax.isSystem = some s →
      Baymax.trimHistory l =
        s :: Baymax.lastN (Baymax.MAX_HISTORY - 1)
          (l.filter (fun m => !(Baymax.isSystem m)))) ∧
    (l.find? Baymax.isSystem = none →
      Baymax.trimHistory l =
        Baymax.lastN Baymax.MAX_HISTORY
          (l.filter (fun m => !(Baymax.isSystem m)))) :=
  ⟨Baymax.trimHistory_length l, Baymax.trimHistory_nonSystem_suffix l,
   Baymax.trimHistory_system_count l,
   fun s hf => Baymax.trimHistory_of_find_some l s hf,
   fun hf => Baymax.trimHistory_of_find_none l hf⟩

/-- Witness for C2 at a concrete history with a duplicate system message. -/
theorem C2_trim_spec_witness :
    Baymax.trimHistory
        [⟨"user", "u1"⟩, ⟨"system", "s1"⟩, ⟨"user", "u2"⟩, ⟨"system", "s2"⟩] =
      [⟨"system", "s1"⟩, ⟨"user", "u1"⟩, ⟨"user", "u2"⟩] := by
  have h := (C2_trim_spec
    [⟨"user", "u1"⟩, ⟨"system", "s1"⟩, ⟨"user", "u2"⟩, ⟨"system", "s2"⟩]).2.2.2.1
    ⟨"system", "s1"⟩ (by decide)
  rw [h]
  decide


namespace Baymax

theorem chatCore_of_not_ok (um : String) (stored : Option (List Message))
    (vec : VectorOutcome) (groq : HttpResp) (h : groq.ok = false) :
    chatCore um stored vec groq =
      { status := 502, errorMsg := some "Upstream model error",
        upstreamStatus := some groq.status,
        upstreamDetail := some (groq.bodyText.getD "<no-body>"),
        reply := none, context := (contextOf vec).1, storeWrite := none,
        touchedStore := true, calledVector := true, calledGroq := true } := by
  unfold chatCore
  simp [h]

theorem chatCore_status (um : String) (stored : Option (List Message))
    (vec : VectorOutcome) (groq : HttpResp) :
    (chatCore um stored vec groq).status = if groq.ok then 200 else 502 := by
  unfold chatCore
  by_cases h : groq.ok <;> simp [h]

theorem chatCore_context (um : String) (stored : Option (List Message))
    (vec : VectorOutcome) (groq : HttpResp) :
    (chatCore um stored vec groq).context = (contextOf vec).1 := by
  unfold chatCore
  by_cases h : groq.ok <;> simp [h]

theorem chatCore_storeWrite_ok (um : String) (stored : Option (List Message))
    (vec : VectorOutcome) (groq : HttpResp) (h : List Message)
    (hw : (chatCore um stored vec groq).storeWrite = some h) :
    groq.ok = true := by
  by_cases hok : groq.ok
  · exact hok
  · rw [chatCore_of_not_ok um stored vec groq (by simpa using hok)] at hw
    simp at hw

theorem chatCore_storeWrite_length (um : String) (stored : Option (List Message))
    (vec : VectorOutcome) (groq : HttpResp) (h : List Message)
    (hw : (chatCore um stored vec groq).storeWrite = some h) :
    h.length ≤ MAX_HISTORY + 2 ∧
      ((chatCore um stored vec groq).context = "" →
        h.length ≤ MAX_HISTORY + 1) := by
  have htrim := trimHistory_length
    ((stored.getD [defaultSystem]) ++ [⟨"user", sanitize um⟩])
  have hok : groq.ok = true := chatCore_storeWrite_ok um stored vec groq h hw
  rw [chatCore_context]
  by_cases hc : (contextOf vec).1 = ""
  · unfold chatCore at hw
    simp [hok, hc] at hw
    rw [← hw]
    constructor
    · simp only [List.length_append, List.length_cons, List.length_nil]
      omega
    · intro _
      simp only [List.length_append, List.length_cons, List.length_nil]
      omega
  · unfold chatCore at hw
    simp [hok, hc] at hw
    rw [← hw]
    constructor
    · simp only [List.length_append, List.length_cons, List.length_nil]
      omega
    · intro hcon
      exact absurd hcon hc

theorem handleChat_cases (body : ReqBody) :
    (∀ stored vec groq, handleChat body stored vec groq =
      noEffect 400 "Missing sessionId or userMessage") ∨
    (∀ stored vec groq, handleChat body stored vec groq =
      noEffect 413 "userMessage too long") ∨
    (∃ um, ∀ stored vec groq, handleChat body stored vec groq =
      chatCore um stored vec groq) := by
  cases hs : body.sessionId with
  | none =>
      left
      intro stored vec groq
      unfold handleChat
      simp [hs]
  | some s =>
      by_cases h1 : jsTrim s = ""
      · left
        intro stored vec groq
        unfold handleChat
        simp [hs, h1]
      · cases hu : body.userMessage with
        | none =>
            left
            intro stored vec groq
            unfold handleChat
            simp [hs, hu, h1]
        | some u =>
            by_cases h2 : jsTrim u = ""
            · left
              intro stored vec groq
              unfold handleChat
              simp [hs, hu, h1, h2]
            · by_cases h3 : (jsTrim u).length > 20000
              · right; left
                intro stored vec groq
                unfold handleChat
                simp [hs, hu, h1, h2, h3]
              · right; right
                refine ⟨jsTrim u, fun stored vec groq => ?_⟩
                unfold handleChat
                simp [hs, hu, h1, h2, h3]

theorem handleChat_valid (sid um : String) (stored : Option (List Message))
    (vec : VectorOutcome) (groq : HttpResp)
    (hsid : jsTrim sid ≠ "") (hum : jsTrim um ≠ "")
    (hlen : ¬ (jsTrim um).length > 20000) :
    handleChat ⟨some sid, some um⟩ stored vec groq =
      chatCore (jsTrim um) stored vec groq := by
  unfold handleChat
  simp [hsid, hum, hlen]

theorem contextOf_softFail (v : VectorOutcome) (h : vectorSoftFail v = true) :
    (contextOf v).1 = "" := by
  cases v with
  | throw => rfl
  | resp st bj =>
      cases bj with
      | none => rfl
      | some vr =>
          obtain ⟨res⟩ := vr
          cases res with
          | none => simp [contextOf]
          | some rs =>
              simp only [vectorSoftFail] at h
              have hlen : rs.length = 0 := by simpa using h
              simp [contextOf, hlen]

end Baymax

/-- Claim C3: for every chat request that passes field validation, a
non-2xx status from the completion API makes the handler answer 502
with a body carrying the upstream status code and the raw upstream
error body. -/
theorem C3_upstream_error (sid um : String)
    (stored : Option (List Baymax.Message)) (vec : Baymax.VectorOutcome)
    (groq : Baymax.HttpResp)
    (hsid : Baymax.jsTrim sid ≠ "") (hum : Baymax.jsTrim um ≠ "")
    (hlen : ¬ (Baymax.jsTrim um).length > 20000)
    (hbad : ¬ (200 ≤ groq.status ∧ groq.status ≤ 299)) :
    (Baymax.handleChat ⟨some sid, some um⟩ stored vec groq).status = 502 ∧
    (Baymax.handleChat ⟨some sid, some um⟩ stored vec groq).errorMsg =
      some "Upstream model error" ∧
    (Baymax.handleChat ⟨some sid, some um⟩ stored vec groq).upstreamStatus =
      some groq.status ∧
    (Baymax.handleChat ⟨some sid, some um⟩ stored vec groq).upstreamDetail =
      some (groq.bodyText.getD "<no-body>") := by
  have hok : groq.ok = false := decide_eq_false hbad
  rw [Baymax.handleChat_valid sid um stored vec groq hsid hum hlen,
    Baymax.chatCore_of_not_ok _ _ _ _ hok]
  exact ⟨rfl, rfl, rfl, rfl⟩

/-- Witness for C3: a concrete 500 upstream response is echoed. -/
theorem C3_upstream_error_witness :
    (Baymax.handleChat ⟨some "s", some "hi"⟩ none Baymax.noVector
      ⟨500, some "boom", none⟩).status = 502 ∧
    (Baymax.handleChat ⟨some "s", some "hi"⟩ none Baymax.noVector
      ⟨500, some "boom", none⟩).errorMsg = some "Upstream model error" ∧
    (Baymax.handleChat ⟨some "s", some "hi"⟩ none Baymax.noVector
      ⟨500, some "boom", none⟩).upstreamStatus = some 500 ∧
    (Baymax.handleChat ⟨some "s", some "hi"⟩ none Baymax.noVector
      ⟨500, some "boom", none⟩).upstreamDetail = some "boom" := by
  exact C3_upstream_error "s" "hi" none Baymax.noVector
    ⟨500, some "boom", none⟩ (by decide) (by decide) (by decide) (by decide)

/-- Claim C9: the session write is performed only after a successful
(2xx) completion response; on a non-2xx upstream status the request
leaves the stored history unchanged (no write happens). -/
theorem C9_write_only_after_success (body : Baymax.ReqBody)
    (stored : Option (List Baymax.Message)) (vec : Baymax.VectorOutcome)
    (groq : Baymax.HttpResp) :
    (¬ (200 ≤ groq.status ∧ groq.status ≤ 299) →
      (Baymax.handleChat body stored vec groq).storeWrite = none) ∧
    ((Baymax.handleChat body stored vec groq).storeWrite ≠ none →
      200 ≤ groq.status ∧ groq.status ≤ 299) := by
  constructor
  · intro hbad
    have hok : groq.ok = false := decide_eq_false hbad
    rcases Baymax.handleChat_cases body with h | h | ⟨um, h⟩
    · rw [h stored vec groq]
      rfl
    · rw [h stored vec groq]
      rfl
    · rw [h stored vec groq, Baymax.chatCore_of_not_ok _ _ _ _ hok]
  · intro hw
    rcases hsw : (Baymax.handleChat body stored vec groq).storeWrite with _ | hlist
    · exact absurd hsw hw
    · rcases Baymax.handleChat_cases body with h | h | ⟨um, h⟩
      · rw [h stored vec groq] at hsw
        simp [Baymax.noEffect] at hsw
      · rw [h stored vec groq] at hsw
        simp [Baymax.noEffect] at hsw
      · rw [h stored vec groq] at hsw
        have hok := Baymax.chatCore_storeWrite_ok um stored vec groq hlist hsw
        exact of_decide_eq_true hok

/-- Witness for C9: with a 200 upstream response a write happens, and
the theorem yields that the upstream status was 2xx. -/
theorem C9_write_only_after_success_witness :
    200 ≤ Baymax.groqOkResp.status ∧ Baymax.groqOkResp.status ≤ 299 := by
  exact (C9_write_only_after_success ⟨some "s", some "hi"⟩ none
    Baymax.noVector Baymax.groqOkResp).2 (by decide)

/-- Claim C10: a chat request whose userMessage is entirely whitespace
(or empty) is rejected with 400 as a missing-field error, and neither
the session store nor the retrieval service nor the completion API is
contacted. -/
theorem C10_whitespace_rejected (body : Baymax.ReqBody)
    (stored : Option (List Baymax.Message)) (vec : Baymax.VectorOutcome)
    (groq : Baymax.HttpResp) (s : String)
    (hum : body.userMessage = some s) (hws : Baymax.jsTrim s = "") :
    (Baymax.handleChat body stored vec groq).status = 400 ∧
    (Baymax.handleChat body stored vec groq).errorMsg =
      some "Missing sessionId or userMessage" ∧
    (Baymax.handleChat body stored vec groq).touchedStore = false ∧
    (Baymax.handleChat body stored vec groq).calledVector = false ∧
    (Baymax.handleChat body stored vec groq).calledGroq = false ∧
    (Baymax.handleChat body stored vec groq).storeWrite = none := by
  have heq : Baymax.handleChat body stored vec groq =
      Baymax.noEffect 400 "Missing sessionId or userMessage" := by
    unfold Baymax.handleChat
    cases hs : body.sessionId with
    | none => simp [hs, hum, hws]
    | some sid =>
        by_cases h1 : Baymax.jsTrim sid = ""
        · simp [hs, hum, hws, h1]
        · simp [hs, hum, hws, h1]
  rw [heq]
  exact ⟨rfl, rfl, rfl, rfl, rfl, rfl⟩

/-- Witness for C10 on a three-space userMessage. -/
theorem C10_whitespace_rejected_witness :
    (Baymax.handleChat ⟨some "s", some "   "⟩ none Baymax.noVector
      Baymax.groqOkResp).status = 400 := by
  exact (C10_whitespace_rejected ⟨some "s", some "   "⟩ none Baymax.noVector
    Baymax.groqOkResp "   " rfl (by decide)).1

/-- Claim C4 as stated is false at this input: the retrieval call
answers with the non-2xx status 500 (a retrieval failure in the words
of the claim) but its body still parses to a one-element results array,
and the produced context is NOT the empty string — the handler never
inspects the retrieval status. -/
theorem C4_counterexample :
    ¬ ((Baymax.handleChat ⟨some "s1", some "hi"⟩ none
        (Baymax.VectorOutcome.resp 500 (some ⟨some [⟨none, none, none⟩]⟩))
        Baymax.groqOkResp).context = "") := by
  decide

/-- Claim C4 (amended): the response status never depends on the
retrieval outcome at all, so a retrieval failure never fails the
request and never changes the status; and a network error, unparsable
JSON, missing results or empty results yields empty context.  (A
non-2xx retrieval status alone is not detected and can still produce
context.) -/
theorem C4_amended (body : Baymax.ReqBody)
    (stored : Option (List Baymax.Message)) (groq : Baymax.HttpResp)
    (v1 v2 : Baymax.VectorOutcome)
    (hfail : Baymax.vectorSoftFail v1 = true) :
    (Baymax.handleChat body stored v1 groq).status =
      (Baymax.handleChat body stored v2 groq).status ∧
    (Baymax.handleChat body stored v1 groq).context = "" := by
  rcases Baymax.handleChat_cases body with h | h | ⟨um, h⟩
  · rw [h stored v1 groq, h stored v2 groq]
    exact ⟨rfl, rfl⟩
  · rw [h stored v1 groq, h stored v2 groq]
    exact ⟨rfl, rfl⟩
  · rw [h stored v1 groq, h stored v2 groq]
    refine ⟨?_, ?_⟩
    · rw [Baymax.chatCore_status, Baymax.chatCore_status]
    · rw [Baymax.chatCore_context]
      exact Baymax.contextOf_softFail v1 hfail

/-- Witness for C4 (amended): a rejected retrieval call against a
successful one. -/
theorem C4_amended_witness :
    (Baymax.handleChat ⟨some "s1", some "hi"⟩ none Baymax.VectorOutcome.throw
        Baymax.groqOkResp).status =
      (Baymax.handleChat ⟨some "s1", some "hi"⟩ none
        (Baymax.VectorOutcome.resp 200 (some ⟨some [⟨none, none, none⟩]⟩))
        Baymax.groqOkResp).status ∧
    (Baymax.handleChat ⟨some "s1", some "hi"⟩ none Baymax.VectorOutcome.throw
        Baymax.groqOkResp).context = "" := by
  exact C4_amended ⟨some "s1", some "hi"⟩ none Baymax.groqOkResp
    Baymax.VectorOutcome.throw
    (Baymax.VectorOutcome.resp 200 (some ⟨some [⟨none, none, none⟩]⟩))
    (by decide)

/-- Claim C6: reply extraction tries, in order, the structured message
content of the first choice, then the text field of the first choice,
then the flat top-level reply field when it is a string, and otherwise
yields the literal placeholder. -/
theorem C6_reply_extraction (data : Option Baymax.GroqResponse) :
    (∀ s, Baymax.firstChoiceContent data = some s →
      Baymax.extractReply data = s) ∧
    (Baymax.firstChoiceContent data = none →
      ∀ s, Baymax.firstChoiceText data = some s →
        Baymax.extractReply data = s) ∧
    (Baymax.firstChoiceContent data = none →
      Baymax.firstChoiceText data = none →
        ∀ s, Baymax.flatStringReply data = some s →
          Baymax.extractReply data = s) ∧
    (Baymax.firstChoiceContent data = none →
      Baymax.firstChoiceText data = none →
        Baymax.flatStringReply data = none →
          Baymax.extractReply data = "Model returned no reply") := by
  unfold Baymax.firstChoiceContent Baymax.firstChoiceText
    Baymax.flatStringReply
  refine ⟨?_, ?_, ?_, ?_⟩
  · intro s h
    unfold Baymax.extractReply
    simp only [List.bind_eq_flatMap] at h ⊢
    simp [h]
  · intro h1 s h2
    unfold Baymax.extractReply
    simp [h1, h2]
  · intro h1 h2 s h3
    unfold Baymax.extractReply
    simp [h1, h2, h3]
  · intro h1 h2 h3
    unfold Baymax.extractReply
    simp [h1, h2, h3]

/-- Witness for C6: structured content wins over the other shapes. -/
theorem C6_reply_extraction_witness :
    Baymax.extractReply
        (some ⟨some [⟨some ⟨some "hi"⟩, some "txt"⟩],
          some (Baymax.JReply.jstr "r")⟩) = "hi" := by
  exact (C6_reply_extraction _).1 "hi" rfl

/-- Claim C1 as stated is false: 25 successful chat calls on one
session starting from an empty store (distinct messages, no retrieval
context, every call answering 200) leave a stored history of 21
entries, exceeding the claimed bound of 20 — the assistant reply is
appended after trimming and stored without a further trim. -/
theorem C1_counterexample :
    (Baymax.runSessionOk 25).2 = true ∧
    ¬ (((Baymax.runSessionOk 25).1.getD []).length ≤ 20) := by
  decide

/-- Claim C1 (amended): every history written back holds at most
MAX_HISTORY + 2 = 22 messages, and at most MAX_HISTORY + 1 = 21 when
that request injected no retrieval context; after 25 successful
no-context chat calls with distinct messages starting from an empty
store, the stored history has exactly 21 entries with the original
system message still first. -/
theorem C1_amended :
    (∀ (body : Baymax.ReqBody) (stored : Option (List Baymax.Message))
        (vec : Baymax.VectorOutcome) (groq : Baymax.HttpResp)
        (h : List Baymax.Message),
      (Baymax.handleChat body stored vec groq).storeWrite = some h →
      h.length ≤ Baymax.MAX_HISTORY + 2 ∧
        ((Baymax.handleChat body stored vec groq).context = "" →
          h.length ≤ Baymax.MAX_HISTORY + 1)) ∧
    ((Baymax.runSessionOk 25).2 = true ∧
      ((Baymax.runSessionOk 25).1.getD []).length = 21 ∧
      ((Baymax.runSessionOk 25).1.getD []).head? =
        some Baymax.defaultSystem) := by
  refine ⟨?_, by decide⟩
  intro body stored vec groq h hw
  rcases Baymax.handleChat_cases body with hc | hc | ⟨um, hc⟩
  · rw [hc stored vec groq] at hw
    simp [Baymax.noEffect] at hw
  · rw [hc stored vec groq] at hw
    simp [Baymax.noEffect] at hw
  · rw [hc stored vec groq] at hw ⊢
    exact Baymax.chatCore_storeWrite_length um stored vec groq h hw

/-- Witness for C1 (amended): the first call of the example writes a
three-message history, within the bound. -/
theorem C1_amended_witness :
    ([Baymax.defaultSystem, ⟨"user", "hi"⟩, ⟨"assistant", "ok"⟩] :
      List Baymax.Message).length ≤ Baymax.MAX_HISTORY + 2 := by
  exact (C1_amended.1 ⟨some "s", some "hi"⟩ none Baymax.noVector
    Baymax.groqOkResp [Baymax.defaultSystem, ⟨"user", "hi"⟩,
      ⟨"assistant", "ok"⟩] (by decide)).1

/-- Claim C5 is contradicted by the code: an invalid bearer token (here
signed with a different secret than the issuer secret; an expired token
behaves the same) on the verify path or on the chat path is answered
with status 500, not 401/403.  `verifyJWT` throws a 401 `Response`
object, but the top-level catch turns every thrown value into a 500
"Internal Server Error" answer.  A missing token does yield 401 (third
conjunct). -/
theorem C5_invalid_token_gives_500 :
    (Baymax.authFetch ⟨"http://localhost:5173", "GET", "/verify",
        some (Baymax.PresentedToken.signed ⟨"a", 5000, "wrong"⟩), none⟩
        [] none Baymax.noVector Baymax.groqOkResp "secret" 100).status = 500 ∧
    (Baymax.authFetch ⟨"http://localhost:5173", "POST", "/",
        some (Baymax.PresentedToken.signed ⟨"a", 5000, "wrong"⟩),
        some ⟨none, none, some "s1", some "hi"⟩⟩
        [] none Baymax.noVector Baymax.groqOkResp "secret" 100).status = 500 ∧
    (Baymax.authFetch ⟨"http://localhost:5173", "GET", "/verify",
        some (Baymax.PresentedToken.signed ⟨"a", 50, "secret"⟩), none⟩
        [] none Baymax.noVector Baymax.groqOkResp "secret" 100).status = 500 ∧
    (Baymax.authFetch ⟨"http://localhost:5173", "GET", "/verify", none, none⟩
        [] none Baymax.noVector Baymax.groqOkResp "secret" 100).status = 401 := by
  decide

/-- Claim C7: after signup of user "a" with password "p" on an empty
user store, a login for "a" with password "wrong" answers 401 with the
error message "Invalid credentials". -/
theorem C7_login_wrong_password :
    (Baymax.authFetch ⟨"http://localhost:5173", "POST", "/signup", none,
        some ⟨some "a", some "p", none, none⟩⟩ [] none Baymax.noVector
        Baymax.groqOkResp "secret" 0).status = 200 ∧
    (Baymax.authFetch ⟨"http://localhost:5173", "POST", "/login", none,
        some ⟨some "a", some "wrong", none, none⟩⟩
      (Baymax.authFetch ⟨"http://localhost:5173", "POST", "/signup", none,
          some ⟨some "a", some "p", none, none⟩⟩ [] none Baymax.noVector
          Baymax.groqOkResp "secret" 0).users
      none Baymax.noVector Baymax.groqOkResp "secret" 10).status = 401 ∧
    (Baymax.authFetch ⟨"http://localhost:5173", "POST", "/login", none,
        some ⟨some "a", some "wrong", none, none⟩⟩
      (Baymax.authFetch ⟨"http://localhost:5173", "POST", "/signup", none,
          some ⟨some "a", some "p", none, none⟩⟩ [] none Baymax.noVector
          Baymax.groqOkResp "secret" 0).users
      none Baymax.noVector Baymax.groqOkResp "secret" 10).errorMsg =
        some "Invalid credentials" := by
  decide

/-- Claim C8: on the verify path the response (status, username,
error message, token fields) is independent of the stored
last-issued-token records: two user stores agreeing outside the token
records produce identical verification outcomes — `verifyJWT` reads
only the presented token, the secret and the clock. -/
theorem C8_token_record_inert (origin method : String)
    (bearer : Option Baymax.PresentedToken) (body : Option Baymax.AuthBody)
    (u1 u2 : Baymax.Users) (stored : Option (List Baymax.Message))
    (vec : Baymax.VectorOutcome) (groq : Baymax.HttpResp)
    (secret : String) (now : Nat)
    (hdiff : u1.filter (fun kv => !(Baymax.isTokenKey kv.1)) =
      u2.filter (fun kv => !(Baymax.isTokenKey kv.1))) :
    (Baymax.authFetch ⟨origin, method, "/verify", bearer, body⟩ u1 stored
        vec groq secret now).status =
      (Baymax.authFetch ⟨origin, method, "/verify", bearer, body⟩ u2 stored
        vec groq secret now).status ∧
    (Baymax.authFetch ⟨origin, method, "/verify", bearer, body⟩ u1 stored
        vec groq secret now).username =
      (Baymax.authFetch ⟨origin, method, "/verify", bearer, body⟩ u2 stored
        vec groq secret now).username ∧
    (Baymax.authFetch ⟨origin, method, "/verify", bearer, body⟩ u1 stored
        vec groq secret now).errorMsg =
      (Baymax.authFetch ⟨origin, method, "/verify", bearer, body⟩ u2 stored
        vec groq secret now).errorMsg ∧
    (Baymax.authFetch ⟨origin, method, "/verify", bearer, body⟩ u1 stored
        vec groq secret now).token =
      (Baymax.authFetch ⟨origin, method, "/verify", bearer, body⟩ u2 stored
        vec groq secret now).token ∧
    (Baymax.authFetch ⟨origin, method, "/verify", bearer, body⟩ u1 stored
        vec groq secret now).refreshToken =
      (Baymax.authFetch ⟨origin, method, "/verify", bearer, body⟩ u2 stored
        vec groq secret now).refreshToken := by
  unfold Baymax.authFetch
  by_cases hm : method = "OPTIONS"
  · simp [hm]
  · by_cases ho : origin ∈ Baymax.ALLOWED_ORIGINS
    · cases bearer with
      | none => simp [hm, ho, Baymax.authErr]
      | some p =>
          cases hv : Baymax.verifyJWT p secret now with
          | ok u => simp [hm, ho, hv, Baymax.authErr]
          | error e => simp [hm, ho, hv, Baymax.authErr]
    · simp [hm, ho, Baymax.authErr]

/-- Witness for C8: two stores differing only in the token record of
user "a" verify the same valid token identically. -/
theorem C8_token_record_inert_witness :
    (Baymax.authFetch ⟨"http://localhost:5173", "GET", "/verify",
        some (Baymax.PresentedToken.signed ⟨"a", 200, "secret"⟩), none⟩
        [("a", "h"), ("a_token", "t1")] none Baymax.noVector
        Baymax.groqOkResp "secret" 100).status =
      (Baymax.authFetch ⟨"http://localhost:5173", "GET", "/verify",
        some (Baymax.PresentedToken.signed ⟨"a", 200, "secret"⟩), none⟩
        [("a", "h"), ("a_token", "t2")] none Baymax.noVector
        Baymax.groqOkResp "secret" 100).status := by
  exact (C8_token_record_inert "http://localhost:5173" "GET"
    (some (Baymax.PresentedToken.signed ⟨"a", 200, "secret"⟩)) none
    [("a", "h"), ("a_token", "t1")] [("a", "h"), ("a_token", "t2")]
    none Baymax.noVector Baymax.groqOkResp "secret" 100 (by decide)).1
